import Mathlib

/-!
Verification of the `liboptions` option-string language: a shallow embedding
of the character-level parser `opt_generator` and of the schema validator
`OptManager` (`_process_opt`, `process_dict`, `_usage_str`, `usage`),
together with theorems about their behaviour.

Strings from the Python source are embedded as `List Char`; the parser's
generator is embedded as a step function over an explicit scan state, folded
over the input, returning the list of pairs yielded so far together with an
optional error (a raised exception terminates the generator after the pairs
already yielded were delivered).
-/

namespace Liboptions

/-- The closed set of option types (`OptType` in the source). -/
inductive OptType
  | STRING
  | BOOL
  | LIST
  | LIST_OF_TUPLES
  | YMD_DATE
deriving DecidableEq

/-- One element of a list value: either a plain string item (appended when no
tuple-key is pending) or a `(key, value)` pair (appended when a tuple-key was
captured for it). -/
inductive Item
  | str (s : List Char)
  | pair (k v : List Char)
deriving DecidableEq

/-- A parsed option value: a scalar string, or a list of items. -/
inductive Value
  | scalar (s : List Char)
  | list (items : List Item)
deriving DecidableEq

/-- Errors raised by `opt_generator`. The first four model the `ValueError`s
raised explicitly by the source with a descriptive message; `noneAppend`
models the `AttributeError` raised by `data.append(buffer)` when `data` is
`None` (no `[` was consumed for the current pair). -/
inductive PErr
  | nestedList
  | optWithoutName (buffer : List Char)
  | emptyNameInList
  | twoEquals
  | noneAppend
deriving DecidableEq

/-- The mutable scan state of `opt_generator`: the accumulation buffer, the
escape / quoted-string / inside-list flags, the pending option name, the
pending tuple-key, and the pending list accumulator. -/
structure PState where
  buffer : List Char
  escape_detected : Bool
  string_detected : Bool
  is_list : Bool
  name : Option (List Char)
  tuple_name : Option (List Char)
  data : Option (List Item)
deriving DecidableEq

/-- The state at the top of `opt_generator`, before any character is read. -/
def initState : PState := ⟨[], false, false, false, none, none, none⟩

/-- A yielded pair: the option name (`None` is possible) and its value. -/
abbrev Pair := Option (List Char) × Value

/-- The item flushed into the pending list at `,` (inside a list) and at `]`:
a `(tuple_name, buffer)` pair when a tuple-key is pending, else the buffer. -/
def flushItem (σ : PState) : Item :=
  match σ.tuple_name with
  | some tn => .pair tn σ.buffer
  | none => .str σ.buffer

/-- One iteration of the character loop of `opt_generator`: reading character
`c` in state `σ` either raises an error or produces the next state and the
pairs yielded during this iteration. The branches mirror the source's
dispatch order: escape, quoted string / double quote, backslash, space,
`[`, `]`, `=`, `,`, default append. -/
def step (σ : PState) (c : Char) : Except PErr (PState × List Pair) :=
  if σ.escape_detected then
    .ok ({σ with buffer := σ.buffer ++ [c], escape_detected := false}, [])
  else if σ.string_detected ∨ c = '"' then
    if c = '"' ∧ σ.string_detected then
      .ok ({σ with string_detected := false}, [])
    else if c = '"' then
      .ok ({σ with string_detected := true}, [])
    else
      .ok ({σ with buffer := σ.buffer ++ [c]}, [])
  else if c = '\\' then
    .ok ({σ with escape_detected := true}, [])
  else if c = ' ' then
    .ok (σ, [])
  else if c = '[' then
    if σ.is_list then .error .nestedList
    else .ok ({σ with is_list := true, data := some []}, [])
  else if c = ']' then
    match σ.data with
    | none => .error .noneAppend
    | some l =>
        .ok ({σ with is_list := false, tuple_name := none, name := none,
                     data := none, buffer := []},
             [(σ.name, Value.list (l ++ [flushItem σ]))])
  else if c = '=' then
    match σ.name with
    | none =>
        if σ.buffer ≠ [] then
          .ok ({σ with name := some σ.buffer, buffer := []}, [])
        else .error (.optWithoutName σ.buffer)
    | some _ =>
        if σ.tuple_name = none ∧ σ.is_list then
          if σ.buffer ≠ [] then
            .ok ({σ with tuple_name := some σ.buffer, buffer := []}, [])
          else .error .emptyNameInList
        else .error .twoEquals
  else if c = ',' then
    if σ.is_list then
      match σ.data with
      | none => .error .noneAppend
      | some l =>
          .ok ({σ with tuple_name := none, data := some (l ++ [flushItem σ]),
                       buffer := []}, [])
    else
      .ok ({σ with name := none, data := none, buffer := []},
           [(σ.name, Value.scalar σ.buffer)])
  else
    .ok ({σ with buffer := σ.buffer ++ [c]}, [])

/-- Folding `step` over a list of characters from state `σ`: returns the
pairs yielded while consuming them, and either the final state or the error
that stopped the scan. -/
def run (σ : PState) : List Char → List Pair × Except PErr PState
  | [] => ([], .ok σ)
  | c :: cs =>
      match step σ c with
      | .error e => ([], .error e)
      | .ok (σ', ps) =>
          let r := run σ' cs
          (ps ++ r.1, r.2)

/-- The end-of-input epilogue of `opt_generator`: with no name set and a
non-empty buffer it raises "option without name"; with a name set it yields
the trailing `(name, buffer)` scalar pair; otherwise nothing. -/
def finish (σ : PState) : Except PErr (List Pair) :=
  match σ.name with
  | none => if σ.buffer ≠ [] then .error (.optWithoutName σ.buffer) else .ok []
  | some n => .ok [(some n, Value.scalar σ.buffer)]

/-- The whole generator on an input string: all pairs yielded (in order),
and the error that terminated it, if any. -/
def opt_generator (s : List Char) : List Pair × Option PErr :=
  match run initState s with
  | (ps, .error e) => (ps, some e)
  | (ps, .ok σ) =>
      match finish σ with
      | .error e => (ps, some e)
      | .ok ps2 => (ps ++ ps2, none)

/-- A character with no special meaning to the parser outside quotes and
escapes: not a quote, backslash, space, bracket, `=` or `,`. -/
def Plain (c : Char) : Prop :=
  c ≠ '"' ∧ c ≠ '\\' ∧ c ≠ ' ' ∧ c ≠ '[' ∧ c ≠ ']' ∧ c ≠ '=' ∧ c ≠ ','

instance (c : Char) : Decidable (Plain c) := by
  unfold Plain; infer_instance

/-- The special characters of the mini-language that escaping is meant to
protect: `,`, `=`, `[`, `]` and space. -/
def isSpecialChar (c : Char) : Bool :=
  c = ',' ∨ c = '=' ∨ c = '[' ∨ c = ']' ∨ c = ' '

/-- Escape a value by prefixing every special character with a backslash. -/
def escapeValue (v : List Char) : List Char :=
  v.flatMap (fun c => if isSpecialChar c then ['\\', c] else [c])

/-! ## The validator (`OptManager`) -/

/-- A coerced, typed option value as returned by `_process_opt`: a string,
a boolean, the list value unchanged, or a calendar date (year, month, day). -/
inductive TypedValue
  | str (s : List Char)
  | bool (b : Bool)
  | listVal (items : List Item)
  | date (y m d : Nat)
deriving DecidableEq

/-- Errors raised by the validator, carrying the data interpolated into the
source's `ValueError` messages: `requiredNotFound n` models
"Required option not found: n"; `typeMismatch n v t cause` models
"Value (v) for 'n' is not compatible with its type t", with the embedded
exception text when a date-parsing cause exists. -/
inductive MgrErr
  | requiredNotFound (name : String)
  | typeMismatch (name : String) (value : Value) (t : OptType)
      (cause : Option (List Char))
deriving DecidableEq

/-- Whether a list item is a `(key, value)` tuple (`isinstance(x, tuple)`). -/
def Item.isPair : Item → Bool
  | .pair _ _ => true
  | .str _ => false

/-- The single-quote character, used by Python's `repr` of a string in the
"Invalid isoformat string" message. -/
def squote : Char := Char.ofNat 39

/-- Leap-year test of the proleptic Gregorian calendar used by
`datetime.date`. -/
def isLeap (y : Nat) : Bool :=
  y % 4 = 0 ∧ (y % 100 ≠ 0 ∨ y % 400 = 0)

/-- Days in a month of a given year, as validated by `datetime.date`. -/
def daysInMonth (y m : Nat) : Nat :=
  if m = 2 then (if isLeap y then 29 else 28)
  else if m = 4 ∨ m = 6 ∨ m = 9 ∨ m = 11 then 30
  else 31

/-- The numeric value of a decimal digit character. -/
def digitVal (c : Char) : Nat := c.toNat - 48

/-- The message of the `ValueError` raised by `date.fromisoformat` on a
malformed input: `Invalid isoformat string: '...'`. -/
def isoErr (s : List Char) : List Char :=
  "Invalid isoformat string: ".toList ++ [squote] ++ s ++ [squote]

/-- `datetime.date.fromisoformat`: accepts exactly ten characters of the
shape `yyyy-mm-dd` (all digits, dashes at positions 4 and 7) denoting a
valid calendar date with year 1..9999; anything else raises `ValueError`
with the "Invalid isoformat string" message. -/
def fromisoformat (s : List Char) : Except (List Char) (Nat × Nat × Nat) :=
  match s with
  | [y1, y2, y3, y4, h1, m1, m2, h2, d1, d2] =>
      if y1.isDigit ∧ y2.isDigit ∧ y3.isDigit ∧ y4.isDigit ∧ h1 = '-' ∧
         m1.isDigit ∧ m2.isDigit ∧ h2 = '-' ∧ d1.isDigit ∧ d2.isDigit then
        let y := 1000 * digitVal y1 + 100 * digitVal y2 + 10 * digitVal y3 +
                 digitVal y4
        let m := 10 * digitVal m1 + digitVal m2
        let d := 10 * digitVal d1 + digitVal d2
        if 1 ≤ y ∧ 1 ≤ m ∧ m ≤ 12 ∧ 1 ≤ d ∧ d ≤ daysInMonth y m then
          .ok (y, m, d)
        else .error (isoErr s)
      else .error (isoErr s)
  | _ => .error (isoErr s)

/-- `OptManager._process_opt`: validates `opt_value` against `opt_type` and
coerces it. Returns `some` typed value, or `none` when the type check passed
but the value is empty/absent (`opt` stayed `None` in the source), or raises
a type-mismatch error. -/
def _process_opt (opt_name : String) (opt_value : Value) (opt_type : OptType) :
    Except MgrErr (Option TypedValue) :=
  match opt_type with
  | .STRING =>
      match opt_value with
      | .scalar s => .ok (if s = [] then none else some (.str s))
      | .list _ => .error (.typeMismatch opt_name opt_value opt_type none)
  | .LIST =>
      match opt_value with
      | .list items => .ok (if items = [] then none else some (.listVal items))
      | .scalar _ => .error (.typeMismatch opt_name opt_value opt_type none)
  | .LIST_OF_TUPLES =>
      match opt_value with
      | .list items =>
          if items.all Item.isPair then
            .ok (if items = [] then none else some (.listVal items))
          else .error (.typeMismatch opt_name opt_value opt_type none)
      | .scalar s =>
          if s = [] then .ok none
          else .error (.typeMismatch opt_name opt_value opt_type none)
  | .BOOL =>
      match opt_value with
      | .scalar s =>
          if s = "yes".toList then .ok (some (.bool true))
          else if s = "no".toList then .ok (some (.bool false))
          else .error (.typeMismatch opt_name opt_value opt_type none)
      | .list _ => .error (.typeMismatch opt_name opt_value opt_type none)
  | .YMD_DATE =>
      match opt_value with
      | .scalar s =>
          if s = [] then .error (.typeMismatch opt_name opt_value opt_type none)
          else
            match fromisoformat s with
            | .ok (y, m, d) => .ok (some (.date y m d))
            | .error e =>
                .error (.typeMismatch opt_name opt_value opt_type (some e))
      | .list _ => .error (.typeMismatch opt_name opt_value opt_type none)

/-- The validator's registries: required and not-required options, each an
insertion-ordered mapping from name to type. -/
structure OptManager where
  _required_opt_dict : List (String × OptType)
  _not_required_opt_dict : List (String × OptType)
deriving DecidableEq

/-- Python `dict` lookup on the insertion-ordered association list built by
the caller from the parser's pairs. -/
def lookupD (dict : List (String × Value)) (n : String) : Option Value :=
  match dict with
  | [] => none
  | (k, v) :: rest => if k = n then some v else lookupD rest n

/-- The required-options loop of `process_dict`: iterates in registration
order; an absent name, or a coercion returning `None`, raises
"Required option not found"; a coercion error propagates; otherwise the
typed value is stored. -/
def processRequired (opts : List (String × OptType))
    (opt_dict : List (String × Value)) :
    Except MgrErr (List (String × TypedValue)) :=
  match opts with
  | [] => .ok []
  | (n, t) :: rest =>
      match lookupD opt_dict n with
      | none => .error (.requiredNotFound n)
      | some v =>
          match _process_opt n v t with
          | .error e => .error e
          | .ok none => .error (.requiredNotFound n)
          | .ok (some tv) =>
              match processRequired rest opt_dict with
              | .error e => .error e
              | .ok l => .ok ((n, tv) :: l)

/-- The not-required-options loop of `process_dict`: absent names and empty
coercions are silently skipped; coercion errors propagate. -/
def processNotRequired (opts : List (String × OptType))
    (opt_dict : List (String × Value)) :
    Except MgrErr (List (String × TypedValue)) :=
  match opts with
  | [] => .ok []
  | (n, t) :: rest =>
      match lookupD opt_dict n with
      | none => processNotRequired rest opt_dict
      | some v =>
          match _process_opt n v t with
          | .error e => .error e
          | .ok none => processNotRequired rest opt_dict
          | .ok (some tv) =>
              match processNotRequired rest opt_dict with
              | .error e => .error e
              | .ok l => .ok ((n, tv) :: l)

/-- `OptManager.process_dict`: validates and coerces all registered options
against the input mapping, required options first, in registration order. -/
def process_dict (m : OptManager) (opt_dict : List (String × Value)) :
    Except MgrErr (List (String × TypedValue)) :=
  match processRequired m._required_opt_dict opt_dict with
  | .error e => .error e
  | .ok l1 =>
      match processNotRequired m._not_required_opt_dict opt_dict with
      | .error e => .error e
      | .ok l2 => .ok (l1 ++ l2)

/-- Python slice `s[1:-1]`, used by `_usage_str` to strip the angle brackets
of the `<required>` / `<optional>` marker. -/
def sliceInner (s : String) : String :=
  String.mk ((s.toList.drop 1).dropLast)

/-- `OptManager._usage_str`: the usage token for a single registered
option, rendered per type exactly as the source formats it. -/
def _usage_str (opt_name : String) (opt_type : OptType) (is_required : Bool) :
    String :=
  let opt_str := if is_required then "<required>" else "<optional>"
  match opt_type with
  | .STRING => opt_name ++ "=" ++ opt_str
  | .LIST => opt_name ++ "=[" ++ opt_str ++ ", .... " ++ opt_str ++ "]"
  | .LIST_OF_TUPLES =>
      opt_name ++ "=[" ++ "<item_name>" ++ "=" ++ opt_str ++ ", ..., " ++
        "<item_name>" ++ "=" ++ opt_str
  | .BOOL => opt_name ++ "=<yes/no (" ++ sliceInner opt_str ++ ")>"
  | .YMD_DATE => opt_name ++ "=<yyyy-mm-dd (" ++ sliceInner opt_str ++ ")>"

/-- One loop of `OptManager.usage`: appends each option's token to the
accumulated string, preceded by a comma when the accumulator is non-empty. -/
def usageFold (req : Bool) (acc : String) (l : List (String × OptType)) :
    String :=
  l.foldl (fun acc p =>
    (if acc = "" then acc else acc ++ ",") ++ _usage_str p.1 p.2 req) acc

/-- `OptManager.usage`: the comma-separated usage tokens of all registered
options, required first, in registration order. -/
def usage (m : OptManager) : String :=
  usageFold false (usageFold true "" m._required_opt_dict)
    m._not_required_opt_dict

/-! ## Lemmas about single parser steps -/

theorem step_escape (σ : PState) (c : Char) (h : σ.escape_detected = true) :
    step σ c = .ok ({σ with buffer := σ.buffer ++ [c], escape_detected := false}, []) := by
  simp [step, h]

theorem step_plain (σ : PState) (c : Char) (h1 : σ.escape_detected = false)
    (h2 : σ.string_detected = false) (hc : Plain c) :
    step σ c = .ok ({σ with buffer := σ.buffer ++ [c]}, []) := by
  obtain ⟨q1, q2, q3, q4, q5, q6, q7⟩ := hc
  simp [step, h1, h2, q1, q2, q3, q4, q5, q6, q7]

theorem step_backslash (σ : PState) (h1 : σ.escape_detected = false)
    (h2 : σ.string_detected = false) :
    step σ '\\' = .ok ({σ with escape_detected := true}, []) := by
  simp [step, h1, h2]

theorem step_quote_open (σ : PState) (h1 : σ.escape_detected = false)
    (h2 : σ.string_detected = false) :
    step σ '"' = .ok ({σ with string_detected := true}, []) := by
  simp [step, h1, h2]

theorem step_quote_close (σ : PState) (h1 : σ.escape_detected = false)
    (h2 : σ.string_detected = true) :
    step σ '"' = .ok ({σ with string_detected := false}, []) := by
  simp [step, h1, h2]

theorem step_instring (σ : PState) (c : Char) (h1 : σ.escape_detected = false)
    (h2 : σ.string_detected = true) (hc : c ≠ '"') :
    step σ c = .ok ({σ with buffer := σ.buffer ++ [c]}, []) := by
  simp [step, h1, h2, hc]

theorem step_eq_setName (σ : PState) (h1 : σ.escape_detected = false)
    (h2 : σ.string_detected = false) (hn : σ.name = none) (hb : σ.buffer ≠ []) :
    step σ '=' = .ok ({σ with name := some σ.buffer, buffer := []}, []) := by
  simp [step, h1, h2, hn, hb]

theorem step_comma_scalar (σ : PState) (h1 : σ.escape_detected = false)
    (h2 : σ.string_detected = false) (hl : σ.is_list = false) :
    step σ ',' = .ok ({σ with name := none, data := none, buffer := []},
      [(σ.name, Value.scalar σ.buffer)]) := by
  simp [step, h1, h2, hl]

theorem step_lbracket_nested (σ : PState) (h1 : σ.escape_detected = false)
    (h2 : σ.string_detected = false) (hl : σ.is_list = true) :
    step σ '[' = .error .nestedList := by
  simp [step, h1, h2, hl]

theorem step_rbracket_none (σ : PState) (h1 : σ.escape_detected = false)
    (h2 : σ.string_detected = false) (hd : σ.data = none) :
    step σ ']' = .error .noneAppend := by
  simp [step, h1, h2, hd]

theorem step_space (σ : PState) (h1 : σ.escape_detected = false)
    (h2 : σ.string_detected = false) :
    step σ ' ' = .ok (σ, []) := by
  simp [step, h1, h2]

theorem step_lbracket_open (σ : PState) (h1 : σ.escape_detected = false)
    (h2 : σ.string_detected = false) (hl : σ.is_list = false) :
    step σ '[' = .ok ({σ with is_list := true, data := some []}, []) := by
  simp [step, h1, h2, hl]

theorem step_rbracket_flush (σ : PState) (l : List Item)
    (h1 : σ.escape_detected = false) (h2 : σ.string_detected = false)
    (hd : σ.data = some l) :
    step σ ']' = .ok ({σ with is_list := false, tuple_name := none, name := none, data := none, buffer := []},
      [(σ.name, Value.list (l ++ [flushItem σ]))]) := by
  simp [step, h1, h2, hd]

theorem step_eq_tupleName (σ : PState) (n0 : List Char)
    (h1 : σ.escape_detected = false) (h2 : σ.string_detected = false)
    (hn : σ.name = some n0) (ht : σ.tuple_name = none) (hl : σ.is_list = true)
    (hb : σ.buffer ≠ []) :
    step σ '=' = .ok ({σ with tuple_name := some σ.buffer, buffer := []}, []) := by
  simp [step, h1, h2, hn, ht, hl, hb]

theorem step_eq_noName_err (σ : PState) (h1 : σ.escape_detected = false)
    (h2 : σ.string_detected = false) (hn : σ.name = none) (hb : σ.buffer = []) :
    step σ '=' = .error (.optWithoutName σ.buffer) := by
  simp [step, h1, h2, hn, hb]

theorem step_eq_emptyListName_err (σ : PState) (n0 : List Char)
    (h1 : σ.escape_detected = false) (h2 : σ.string_detected = false)
    (hn : σ.name = some n0) (ht : σ.tuple_name = none) (hl : σ.is_list = true)
    (hb : σ.buffer = []) :
    step σ '=' = .error .emptyNameInList := by
  simp [step, h1, h2, hn, ht, hl, hb]

theorem step_eq_twoEquals_err (σ : PState) (n0 : List Char)
    (h1 : σ.escape_detected = false) (h2 : σ.string_detected = false)
    (hn : σ.name = some n0) (hc : ¬(σ.tuple_name = none ∧ σ.is_list = true)) :
    step σ '=' = .error .twoEquals := by
  simp only [step, h1, h2, hn]
  simp [hc]

theorem step_comma_list_flush (σ : PState) (l : List Item)
    (h1 : σ.escape_detected = false) (h2 : σ.string_detected = false)
    (hl : σ.is_list = true) (hd : σ.data = some l) :
    step σ ',' = .ok ({σ with tuple_name := none, data := some (l ++ [flushItem σ]), buffer := []}, []) := by
  simp [step, h1, h2, hl, hd]

theorem step_comma_list_none_err (σ : PState)
    (h1 : σ.escape_detected = false) (h2 : σ.string_detected = false)
    (hl : σ.is_list = true) (hd : σ.data = none) :
    step σ ',' = .error .noneAppend := by
  simp [step, h1, h2, hl, hd]

/-- Complete characterization of a parser step: every `step σ c` either
succeeds emitting nothing, succeeds emitting the scalar pair of a `,` outside
a list, succeeds emitting the list pair of a `]`, or raises one of the five
errors under the stated conditions. -/
theorem step_characterization (σ : PState) (c : Char) :
    (∃ σ', step σ c = .ok (σ', []))
    ∨ (σ.escape_detected = false ∧ σ.string_detected = false ∧ c = ',' ∧
        σ.is_list = false ∧
        step σ c = .ok ({σ with name := none, data := none, buffer := []},
          [(σ.name, Value.scalar σ.buffer)]))
    ∨ (∃ l, σ.escape_detected = false ∧ σ.string_detected = false ∧ c = ']' ∧
        σ.data = some l ∧
        step σ c = .ok ({σ with is_list := false, tuple_name := none, name := none, data := none, buffer := []},
          [(σ.name, Value.list (l ++ [flushItem σ]))]))
    ∨ (σ.escape_detected = false ∧ σ.string_detected = false ∧ c = '[' ∧
        σ.is_list = true ∧ step σ c = .error .nestedList)
    ∨ (σ.escape_detected = false ∧ σ.string_detected = false ∧ c = ']' ∧
        σ.data = none ∧ step σ c = .error .noneAppend)
    ∨ (σ.escape_detected = false ∧ σ.string_detected = false ∧ c = ',' ∧
        σ.is_list = true ∧ σ.data = none ∧ step σ c = .error .noneAppend)
    ∨ (σ.escape_detected = false ∧ σ.string_detected = false ∧ c = '=' ∧
        σ.name = none ∧ σ.buffer = [] ∧
        step σ c = .error (.optWithoutName σ.buffer))
    ∨ (σ.escape_detected = false ∧ σ.string_detected = false ∧ c = '=' ∧
        σ.name ≠ none ∧ σ.tuple_name = none ∧ σ.is_list = true ∧
        σ.buffer = [] ∧ step σ c = .error .emptyNameInList)
    ∨ (σ.escape_detected = false ∧ σ.string_detected = false ∧ c = '=' ∧
        σ.name ≠ none ∧ ¬(σ.tuple_name = none ∧ σ.is_list = true) ∧
        step σ c = .error .twoEquals) := by
  by_cases he : σ.escape_detected = true
  · exact Or.inl ⟨_, step_escape σ c he⟩
  have he' : σ.escape_detected = false := by simpa using he
  by_cases hq : c = '"'
  · subst hq
    by_cases hstr : σ.string_detected = true
    · exact Or.inl ⟨_, step_quote_close σ he' hstr⟩
    · exact Or.inl ⟨_, step_quote_open σ he' (by simpa using hstr)⟩
  by_cases hstr : σ.string_detected = true
  · exact Or.inl ⟨_, step_instring σ c he' hstr hq⟩
  have hstr' : σ.string_detected = false := by simpa using hstr
  by_cases hbs : c = '\\'
  · subst hbs; exact Or.inl ⟨_, step_backslash σ he' hstr'⟩
  by_cases hsp : c = ' '
  · subst hsp; exact Or.inl ⟨_, step_space σ he' hstr'⟩
  by_cases hlb : c = '['
  · subst hlb
    by_cases hl : σ.is_list = true
    · exact Or.inr (Or.inr (Or.inr (Or.inl
        ⟨he', hstr', rfl, hl, step_lbracket_nested σ he' hstr' hl⟩)))
    · exact Or.inl ⟨_, step_lbracket_open σ he' hstr' (by simpa using hl)⟩
  by_cases hrb : c = ']'
  · subst hrb
    cases hd : σ.data with
    | none =>
        exact Or.inr (Or.inr (Or.inr (Or.inr (Or.inl
          ⟨he', hstr', rfl, rfl, step_rbracket_none σ he' hstr' hd⟩))))
    | some l =>
        exact Or.inr (Or.inr (Or.inl
          ⟨l, he', hstr', rfl, rfl, step_rbracket_flush σ l he' hstr' hd⟩))
  by_cases heq : c = '='
  · subst heq
    cases hn : σ.name with
    | none =>
        by_cases hb : σ.buffer = []
        · exact Or.inr (Or.inr (Or.inr (Or.inr (Or.inr (Or.inr (Or.inl
            ⟨he', hstr', rfl, rfl, hb, step_eq_noName_err σ he' hstr' hn hb⟩))))))
        · exact Or.inl ⟨_, step_eq_setName σ he' hstr' hn hb⟩
    | some n0 =>
        by_cases hcnd : σ.tuple_name = none ∧ σ.is_list = true
        · by_cases hb : σ.buffer = []
          · exact Or.inr (Or.inr (Or.inr (Or.inr (Or.inr (Or.inr (Or.inr (Or.inl
              ⟨he', hstr', rfl, by simp [hn], hcnd.1, hcnd.2, hb,
                step_eq_emptyListName_err σ n0 he' hstr' hn hcnd.1 hcnd.2 hb⟩)))))))
          · exact Or.inl ⟨_, step_eq_tupleName σ n0 he' hstr' hn hcnd.1 hcnd.2 hb⟩
        · exact Or.inr (Or.inr (Or.inr (Or.inr (Or.inr (Or.inr (Or.inr (Or.inr
            ⟨he', hstr', rfl, by simp [hn], hcnd,
              step_eq_twoEquals_err σ n0 he' hstr' hn hcnd⟩)))))))
  by_cases hcm : c = ','
  · subst hcm
    by_cases hl : σ.is_list = true
    · cases hd : σ.data with
      | none =>
          exact Or.inr (Or.inr (Or.inr (Or.inr (Or.inr (Or.inl
            ⟨he', hstr', rfl, hl, rfl, step_comma_list_none_err σ he' hstr' hl hd⟩)))))
      | some l =>
          exact Or.inl ⟨_, step_comma_list_flush σ l he' hstr' hl hd⟩
    · exact Or.inr (Or.inl ⟨he', hstr', rfl, by simpa using hl,
        step_comma_scalar σ he' hstr' (by simpa using hl)⟩)
  · exact Or.inl ⟨_, step_plain σ c he' hstr' ⟨hq, hbs, hsp, hlb, hrb, heq, hcm⟩⟩

/-! ## Lemmas about runs -/

theorem run_cons_ok (σ : PState) (c : Char) (σ' : PState) (ps : List Pair)
    (cs : List Char) (h : step σ c = .ok (σ', ps)) :
    run σ (c :: cs) = (ps ++ (run σ' cs).1, (run σ' cs).2) := by
  simp [run, h]

theorem run_cons_err (σ : PState) (c : Char) (e : PErr) (cs : List Char)
    (h : step σ c = .error e) :
    run σ (c :: cs) = ([], .error e) := by
  simp [run, h]

theorem run_cons_silent (σ : PState) (c : Char) (σ' : PState) (cs : List Char)
    (h : step σ c = .ok (σ', [])) :
    run σ (c :: cs) = run σ' cs := by
  rw [run_cons_ok _ _ _ _ _ h]
  simp

theorem run_append_ok (xs : List Char) :
    ∀ (σ : PState) (ps : List Pair) (σ' : PState), run σ xs = (ps, .ok σ') →
    ∀ ys, run σ (xs ++ ys) = (ps ++ (run σ' ys).1, (run σ' ys).2) := by
  induction xs with
  | nil =>
      intro σ ps σ' h ys
      simp [run] at h
      obtain ⟨rfl, rfl⟩ := h
      simp
  | cons c cs ih =>
      intro σ ps σ' h ys
      cases hstep : step σ c with
      | error e =>
          rw [run_cons_err _ _ _ _ hstep] at h
          simp at h
      | ok p =>
          obtain ⟨σ1, ps1⟩ := p
          rw [run_cons_ok _ _ _ _ _ hstep] at h
          have h2 : run σ1 cs = ((run σ1 cs).1, .ok σ') := by
            have hsnd := congrArg Prod.snd h
            exact Prod.ext rfl hsnd
          have hfst : ps1 ++ (run σ1 cs).1 = ps := congrArg Prod.fst h
          rw [List.cons_append, run_cons_ok _ _ _ _ _ hstep,
            ih σ1 (run σ1 cs).1 σ' h2 ys]
          simp [← hfst, List.append_assoc]

theorem run_append_err (xs : List Char) :
    ∀ (σ : PState) (ps : List Pair) (e : PErr), run σ xs = (ps, .error e) →
    ∀ ys, run σ (xs ++ ys) = (ps, .error e) := by
  induction xs with
  | nil =>
      intro σ ps e h ys
      simp [run] at h
  | cons c cs ih =>
      intro σ ps e h ys
      cases hstep : step σ c with
      | error e1 =>
          rw [run_cons_err _ _ _ _ hstep] at h
          simp at h
          obtain ⟨rfl, rfl⟩ := h
          rw [List.cons_append, run_cons_err _ _ _ _ hstep]
      | ok p =>
          obtain ⟨σ1, ps1⟩ := p
          rw [run_cons_ok _ _ _ _ _ hstep] at h
          have h2 : run σ1 cs = ((run σ1 cs).1, .error e) := by
            have hsnd := congrArg Prod.snd h
            exact Prod.ext rfl hsnd
          have hfst : ps1 ++ (run σ1 cs).1 = ps := congrArg Prod.fst h
          rw [List.cons_append, run_cons_ok _ _ _ _ _ hstep,
            ih σ1 (run σ1 cs).1 e h2 ys]
          simp [← hfst]

theorem run_plain_list (p : List Char) :
    ∀ σ : PState, σ.escape_detected = false → σ.string_detected = false →
    (∀ c ∈ p, Plain c) →
    run σ p = ([], .ok {σ with buffer := σ.buffer ++ p}) := by
  induction p with
  | nil =>
      intro σ h1 h2 _
      simp [run]
  | cons c p ih =>
      intro σ h1 h2 hp
      rw [run_cons_ok _ _ _ _ _ (step_plain σ c h1 h2 (hp c (by simp)))]
      rw [ih {σ with buffer := σ.buffer ++ [c]} h1 h2
        (fun x hx => hp x (by simp [hx]))]
      simp

theorem run_escaped (v : List Char) :
    ∀ σ : PState, σ.escape_detected = false → σ.string_detected = false →
    (∀ c ∈ v, c ≠ '"' ∧ c ≠ '\\') →
    run σ (escapeValue v) = ([], .ok {σ with buffer := σ.buffer ++ v}) := by
  induction v with
  | nil =>
      intro σ h1 h2 _
      simp [escapeValue, run]
  | cons c v ih =>
      intro σ h1 h2 hv
      have hc := hv c (by simp)
      have hv' : ∀ x ∈ v, x ≠ '"' ∧ x ≠ '\\' := fun x hx => hv x (by simp [hx])
      by_cases hs : isSpecialChar c
      · rw [show escapeValue (c :: v) = '\\' :: c :: escapeValue v by
          simp [escapeValue, hs]]
        rw [run_cons_silent _ _ _ _ (step_backslash σ h1 h2)]
        rw [run_cons_silent _ _ _ _ (step_escape _ c rfl)]
        rw [ih _ (by simp) (by simp [h2]) hv']
        simp [h1]
      · have hpl : Plain c := by
          have hs2 : ¬(c = ',' ∨ c = '=' ∨ c = '[' ∨ c = ']' ∨ c = ' ') := by
            simpa [isSpecialChar] using hs
          push_neg at hs2
          exact ⟨hc.1, hc.2, hs2.2.2.2.2, hs2.2.2.1, hs2.2.2.2.1, hs2.2.1, hs2.1⟩
        rw [show escapeValue (c :: v) = c :: escapeValue v by
          simp [escapeValue, hs]]
        rw [run_cons_silent _ _ _ _ (step_plain σ c h1 h2 hpl)]
        rw [ih _ (by simp [h1]) (by simp [h2]) hv']
        simp

theorem run_quoted (v : List Char) :
    ∀ σ : PState, σ.escape_detected = false → σ.string_detected = true →
    (∀ c ∈ v, c ≠ '"') →
    run σ v = ([], .ok {σ with buffer := σ.buffer ++ v}) := by
  induction v with
  | nil =>
      intro σ h1 h2 _
      simp [run]
  | cons c v ih =>
      intro σ h1 h2 hv
      rw [run_cons_ok _ _ _ _ _ (step_instring σ c h1 h2 (hv c (by simp)))]
      rw [ih {σ with buffer := σ.buffer ++ [c]} h1 h2
        (fun x hx => hv x (by simp [hx]))]
      simp

/-- The pairs emitted by a successful step: nothing, the scalar pair of a
`,` outside a list, or the list pair of a `]` (whose list ends in the item
just flushed). -/
theorem step_ok_emission (σ : PState) (c : Char) (σ' : PState) (ps : List Pair)
    (h : step σ c = .ok (σ', ps)) :
    ps = [] ∨ ps = [(σ.name, Value.scalar σ.buffer)] ∨
      ∃ l, ps = [(σ.name, Value.list (l ++ [flushItem σ]))] := by
  rcases step_characterization σ c with ⟨σ1, hs⟩ | ⟨h1, h2, hc, h4, hs⟩ |
    ⟨l, h1, h2, hc, h4, hs⟩ | ⟨h1, h2, hc, h4, hs⟩ | ⟨h1, h2, hc, h4, hs⟩ |
    ⟨h1, h2, hc, h4, h5, hs⟩ | ⟨h1, h2, hc, h4, h5, hs⟩ |
    ⟨h1, h2, hc, h4, h5, h6, h7, hs⟩ | ⟨h1, h2, hc, h4, h5, hs⟩
  · rw [hs] at h
    exact Or.inl (congrArg Prod.snd (Except.ok.inj h)).symm
  · rw [hs] at h
    exact Or.inr (Or.inl (congrArg Prod.snd (Except.ok.inj h)).symm)
  · rw [hs] at h
    exact Or.inr (Or.inr ⟨l, (congrArg Prod.snd (Except.ok.inj h)).symm⟩)
  · rw [hs] at h; exact Except.noConfusion h
  · rw [hs] at h; exact Except.noConfusion h
  · rw [hs] at h; exact Except.noConfusion h
  · rw [hs] at h; exact Except.noConfusion h
  · rw [hs] at h; exact Except.noConfusion h
  · rw [hs] at h; exact Except.noConfusion h

/-- The "option without name" error arises during the scan only at an `=`
read with no name set and an empty buffer (and carries the empty buffer). -/
theorem step_err_optWithoutName (σ : PState) (c : Char) (b : List Char)
    (h : step σ c = .error (.optWithoutName b)) :
    c = '=' ∧ σ.name = none ∧ σ.buffer = [] ∧ b = [] := by
  rcases step_characterization σ c with ⟨σ1, hs⟩ | ⟨h1, h2, hc, h4, hs⟩ |
    ⟨l, h1, h2, hc, h4, hs⟩ | ⟨h1, h2, hc, h4, hs⟩ | ⟨h1, h2, hc, h4, hs⟩ |
    ⟨h1, h2, hc, h4, h5, hs⟩ | ⟨h1, h2, hc, h4, h5, hs⟩ |
    ⟨h1, h2, hc, h4, h5, h6, h7, hs⟩ | ⟨h1, h2, hc, h4, h5, hs⟩
  · rw [hs] at h; exact Except.noConfusion h
  · rw [hs] at h; exact Except.noConfusion h
  · rw [hs] at h; exact Except.noConfusion h
  · rw [hs] at h; injection h with hh; exact PErr.noConfusion hh
  · rw [hs] at h; injection h with hh; exact PErr.noConfusion hh
  · rw [hs] at h; injection h with hh; exact PErr.noConfusion hh
  · rw [hs] at h
    injection h with hh
    injection hh with hb
    exact ⟨hc, h4, h5, hb.symm.trans h5⟩
  · rw [hs] at h; injection h with hh; exact PErr.noConfusion hh
  · rw [hs] at h; injection h with hh; exact PErr.noConfusion hh

/-- The end-of-input "option without name" error arises exactly when no name
is set and the buffer is non-empty, and carries the buffer. -/
theorem finish_err_optWithoutName (σ : PState) (b : List Char)
    (h : finish σ = .error (.optWithoutName b)) :
    σ.name = none ∧ σ.buffer ≠ [] ∧ b = σ.buffer := by
  unfold finish at h
  cases hn : σ.name with
  | some n => rw [hn] at h; exact Except.noConfusion h
  | none =>
      rw [hn] at h
      by_cases hb : σ.buffer ≠ []
      · rw [if_pos hb] at h
        injection h with hh
        injection hh with hbb
        exact ⟨rfl, hb, hbb.symm⟩
      · rw [if_neg hb] at h; exact Except.noConfusion h

/-- The end-of-input epilogue emits only scalar pairs. -/
theorem finish_ok_scalar (σ : PState) (ps : List Pair)
    (h : finish σ = .ok ps) :
    ∀ pr ∈ ps, ∃ s, pr.2 = Value.scalar s := by
  unfold finish at h
  cases hn : σ.name with
  | none =>
      rw [hn] at h
      by_cases hb : σ.buffer ≠ []
      · rw [if_pos hb] at h; exact Except.noConfusion h
      · rw [if_neg hb] at h
        have hps := Except.ok.inj h
        intro pr hpr
        rw [← hps] at hpr
        simp at hpr
  | some n =>
      rw [hn] at h
      have hps := Except.ok.inj h
      intro pr hpr
      rw [← hps] at hpr
      simp at hpr
      rw [hpr]
      exact ⟨σ.buffer, rfl⟩

/-- No run ever emits an empty list value. -/
theorem run_no_empty_list (cs : List Char) :
    ∀ σ : PState, ∀ pr ∈ (run σ cs).1, ∀ l, pr.2 = Value.list l → l ≠ [] := by
  induction cs with
  | nil => intro σ pr hpr; simp [run] at hpr
  | cons c cs ih =>
      intro σ pr hpr l hl
      cases hstep : step σ c with
      | error e => rw [run_cons_err _ _ _ _ hstep] at hpr; simp at hpr
      | ok p =>
          obtain ⟨σ1, ps1⟩ := p
          rw [run_cons_ok _ _ _ _ _ hstep] at hpr
          rcases List.mem_append.mp hpr with hmem | hmem
          · rcases step_ok_emission σ c σ1 ps1 hstep with rfl | rfl | ⟨l0, rfl⟩
            · simp at hmem
            · simp at hmem
              rw [hmem] at hl
              exact Value.noConfusion hl
            · simp at hmem
              rw [hmem] at hl
              injection hl with hll
              rw [← hll]
              simp
          · exact ih σ1 pr hmem l hl

theorem opt_generator_run_err (s : List Char) (ps : List Pair) (e : PErr)
    (h : run initState s = (ps, .error e)) : opt_generator s = (ps, some e) := by
  unfold opt_generator
  rw [h]

theorem opt_generator_run_ok (s : List Char) (ps ps2 : List Pair) (σ : PState)
    (h : run initState s = (ps, .ok σ)) (h2 : finish σ = .ok ps2) :
    opt_generator s = (ps ++ ps2, none) := by
  unfold opt_generator
  rw [h]
  simp [h2]

/-- Consuming `name=value` (both of plain characters) from a fresh-pair state
sets the name and leaves the value in the buffer, emitting nothing. -/
theorem run_name_value (n v : List Char) (σ : PState) (hn : n ≠ [])
    (hpn : ∀ x ∈ n, Plain x) (hpv : ∀ x ∈ v, Plain x)
    (h1 : σ.escape_detected = false) (h2 : σ.string_detected = false)
    (hname : σ.name = none) (hbuf : σ.buffer = []) :
    run σ (n ++ '=' :: v) = ([], .ok {σ with name := some n, buffer := v}) := by
  have hr1 : run σ n = ([], .ok {σ with buffer := n}) := by
    have := run_plain_list n σ h1 h2 hpn
    simpa [hbuf] using this
  have hr2 := run_append_ok n σ [] _ hr1 ('=' :: v)
  have hstep : step {σ with buffer := n} '=' =
      .ok ({σ with name := some n, buffer := []}, []) := by
    have := step_eq_setName {σ with buffer := n} (by simpa using h1)
      (by simpa using h2) (by simpa using hname) (by simpa using hn)
    simpa using this
  rw [run_cons_silent _ _ _ _ hstep] at hr2
  rw [run_plain_list v {σ with name := some n, buffer := []} (by simpa using h1)
    (by simpa using h2) hpv] at hr2
  simpa using hr2

/-! ## Claims -/

/-- Claim C1: for every valid scalar input of the form `a=b,c=d` (two
name=value pairs of plain characters separated by a comma, no lists, no
quotes, no escapes), `opt_generator` yields exactly the pairs `(a, b)` and
`(c, d)` in input order; the first pair is already emitted once the comma is
consumed, and the second is emitted only by the end-of-input epilogue. -/
theorem c1_scalar_pairs (a b c d : List Char) (ha : a ≠ []) (hc : c ≠ [])
    (hpa : ∀ x ∈ a, Plain x) (hpb : ∀ x ∈ b, Plain x)
    (hpc : ∀ x ∈ c, Plain x) (hpd : ∀ x ∈ d, Plain x) :
    run initState (a ++ '=' :: b ++ [',']) =
      ([(some a, Value.scalar b)], .ok initState) ∧
    run initState (a ++ '=' :: b ++ ',' :: c ++ '=' :: d) =
      ([(some a, Value.scalar b)], .ok {initState with name := some c, buffer := d}) ∧
    opt_generator (a ++ '=' :: b ++ ',' :: c ++ '=' :: d) =
      ([(some a, Value.scalar b), (some c, Value.scalar d)], none) := by
  have hab : run initState (a ++ '=' :: b) =
      ([], .ok {initState with name := some a, buffer := b}) :=
    run_name_value a b initState ha hpa hpb rfl rfl rfl rfl
  have part1 : run initState (a ++ '=' :: b ++ [',']) =
      ([(some a, Value.scalar b)], .ok initState) := by
    rw [show a ++ '=' :: b ++ [','] = (a ++ '=' :: b) ++ [','] by simp]
    have h := run_append_ok (a ++ '=' :: b) initState [] _ hab [',']
    have hstep : step ({initState with name := some a, buffer := b} : PState) ',' =
        .ok (initState, [(some a, Value.scalar b)]) := by
      have := step_comma_scalar {initState with name := some a, buffer := b}
        rfl rfl rfl
      simpa [initState] using this
    rw [run_cons_ok _ _ _ _ _ hstep] at h
    simpa using h
  have part2 : run initState (a ++ '=' :: b ++ ',' :: c ++ '=' :: d) =
      ([(some a, Value.scalar b)], .ok {initState with name := some c, buffer := d}) := by
    rw [show a ++ '=' :: b ++ ',' :: c ++ '=' :: d =
      (a ++ '=' :: b ++ [',']) ++ (c ++ '=' :: d) by simp]
    have h := run_append_ok (a ++ '=' :: b ++ [',']) initState _ _ part1 (c ++ '=' :: d)
    rw [run_name_value c d initState hc hpc hpd rfl rfl rfl rfl] at h
    simpa using h
  refine ⟨part1, part2, ?_⟩
  have := opt_generator_run_ok _ _ _ _ part2 rfl
  simpa using this

/-- Witness for C1 at the concrete input `a=b,c=d`. -/
theorem c1_scalar_pairs_w :
    run initState (['a'] ++ '=' :: ['b'] ++ [',']) =
      ([(some ['a'], Value.scalar ['b'])], .ok initState) ∧
    run initState (['a'] ++ '=' :: ['b'] ++ ',' :: ['c'] ++ '=' :: ['d']) =
      ([(some ['a'], Value.scalar ['b'])],
        .ok {initState with name := some ['c'], buffer := ['d']}) ∧
    opt_generator (['a'] ++ '=' :: ['b'] ++ ',' :: ['c'] ++ '=' :: ['d']) =
      ([(some ['a'], Value.scalar ['b']), (some ['c'], Value.scalar ['d'])], none) :=
  c1_scalar_pairs ['a'] ['b'] ['c'] ['d'] (by decide) (by decide)
    (by decide) (by decide) (by decide) (by decide)

/-- Claim C2: list items are classified by whether a tuple-key was captured
before the flush: `a=[1,2,3]` yields one pair whose value is the list of
plain string items `1`, `2`, `3`, and `a=[x=1,y=2]` yields one pair whose
value is the list of key/value pairs `(x,1)`, `(y,2)`. -/
theorem c2_list_item_shapes :
    opt_generator "a=[1,2,3]".toList =
      ([(some ['a'], Value.list [Item.str ['1'], Item.str ['2'], Item.str ['3']])], none) ∧
    opt_generator "a=[x=1,y=2]".toList =
      ([(some ['a'], Value.list [Item.pair ['x'] ['1'], Item.pair ['y'] ['2']])], none) :=
  ⟨rfl, rfl⟩

/-- Claim C3: `process_dict` walks the required registry in registration
order; a required name that is absent, or whose coercion returns the empty
result `none`, raises "Required option not found" naming it (in particular
for an empty STRING value and an empty LIST value), while a required option
with a non-empty valid value is coerced and stored. -/
theorem c3_required_options (n : String) (t : OptType)
    (rest nreq : List (String × OptType)) (dict : List (String × Value)) :
    (lookupD dict n = none →
      process_dict ⟨(n, t) :: rest, nreq⟩ dict = .error (.requiredNotFound n)) ∧
    (∀ v : Value, lookupD dict n = some v → _process_opt n v t = .ok none →
      process_dict ⟨(n, t) :: rest, nreq⟩ dict = .error (.requiredNotFound n)) ∧
    (∀ (v : Value) (tv : TypedValue), lookupD dict n = some v →
      _process_opt n v t = .ok (some tv) →
      process_dict ⟨[(n, t)], []⟩ dict = .ok [(n, tv)]) ∧
    process_dict ⟨[("s", .STRING)], []⟩ [("s", .scalar [])] =
      .error (.requiredNotFound "s") ∧
    process_dict ⟨[("l", .LIST)], []⟩ [("l", .list [])] =
      .error (.requiredNotFound "l") := by
  refine ⟨?_, ?_, ?_, rfl, rfl⟩
  · intro h
    simp [process_dict, processRequired, h]
  · intro v hv hp
    simp [process_dict, processRequired, hv, hp]
  · intro v tv hv hp
    simp [process_dict, processRequired, processNotRequired, hv, hp]

/-- Witness for C3 at a required STRING option `x`. -/
theorem c3_required_options_w :
    process_dict ⟨[("x", OptType.STRING)], []⟩ [] =
      .error (.requiredNotFound "x") ∧
    process_dict ⟨[("x", OptType.STRING)], []⟩ [("x", .scalar [])] =
      .error (.requiredNotFound "x") ∧
    process_dict ⟨[("x", OptType.STRING)], []⟩ [("x", .scalar ['v'])] =
      .ok [("x", .str ['v'])] :=
  ⟨(c3_required_options "x" .STRING [] [] []).1 rfl,
   (c3_required_options "x" .STRING [] [] [("x", .scalar [])]).2.1
     (.scalar []) (by decide) rfl,
   (c3_required_options "x" .STRING [] [] [("x", .scalar ['v'])]).2.2.1
     (.scalar ['v']) (.str ['v']) (by decide) rfl⟩

/-- Claim C4 (code bug): the usage token rendered for a LIST_OF_TUPLES
option lacks the closing square bracket: it is
`x=[<item_name>=<required>, ..., <item_name>=<required>` and differs from
the bracket-closed form the documentation describes. -/
theorem c4_usage_tuples_missing_bracket :
    usage ⟨[("x", OptType.LIST_OF_TUPLES)], []⟩ =
      "x=[<item_name>=<required>, ..., <item_name>=<required>" ∧
    _usage_str "x" OptType.LIST_OF_TUPLES true ≠
      "x=[<item_name>=<required>, ..., <item_name>=<required>]" := by
  constructor
  · rfl
  · decide

/-- Claim C5: a `[` read while a list is already open (outside quotes and
escapes) raises the nested-list error at once: the whole parse stops there,
keeping exactly the pairs already emitted, as on `a=[1,[2]]`. -/
theorem c5_nested_list_error (σ : PState) (pre rest : List Char) (ps : List Pair) :
    (σ.escape_detected = false → σ.string_detected = false → σ.is_list = true →
      step σ '[' = .error .nestedList) ∧
    (run initState pre = (ps, .ok σ) → σ.escape_detected = false →
      σ.string_detected = false → σ.is_list = true →
      opt_generator (pre ++ '[' :: rest) = (ps, some .nestedList)) ∧
    opt_generator "a=[1,[2]]".toList = ([], some .nestedList) := by
  refine ⟨fun h1 h2 h3 => step_lbracket_nested σ h1 h2 h3, fun hrun h1 h2 h3 => ?_, rfl⟩
  have h4 : run σ ('[' :: rest) = ([], .error .nestedList) :=
    run_cons_err _ _ _ _ (step_lbracket_nested σ h1 h2 h3)
  have h5 := run_append_ok pre initState ps σ hrun ('[' :: rest)
  rw [h4] at h5
  exact opt_generator_run_err _ _ _ (by simpa using h5)

/-- Witness for C5 at the prefix `a=[1,` of `a=[1,[2]]`. -/
theorem c5_nested_list_error_w :
    step (⟨[], false, false, true, some ['a'], none, some [Item.str ['1']]⟩ : PState) '[' =
      .error .nestedList ∧
    opt_generator ("a=[1,".toList ++ '[' :: "2]]".toList) = ([], some .nestedList) :=
  ⟨(c5_nested_list_error ⟨[], false, false, true, some ['a'], none, some [Item.str ['1']]⟩
      "a=[1,".toList "2]]".toList []).1 rfl rfl rfl,
   (c5_nested_list_error ⟨[], false, false, true, some ['a'], none, some [Item.str ['1']]⟩
      "a=[1,".toList "2]]".toList []).2.1 rfl rfl rfl rfl⟩

/-- Counterexample to C6 as stated: for the value `",` (which contains the
special character `,`), neither backslash-escaping the special characters
nor enclosing the value in double quotes parses back to the original value,
because the embedded `"` toggles quoting and the embedded `\` is consumed
as an escape marker. -/
theorem c6_claim_counterexample :
    (∃ x ∈ ['"', ','], isSpecialChar x = true) ∧
    opt_generator ("a=".toList ++ escapeValue ['"', ',']) ≠
      ([(some ['a'], Value.scalar ['"', ','])], none) ∧
    opt_generator ("a=".toList ++ ('"' :: ['"', ','] ++ ['"'])) ≠
      ([(some ['a'], Value.scalar ['"', ','])], none) := by
  refine ⟨⟨',', by simp, by decide⟩, by decide, by decide⟩

/-- Claim C6 (amended): for every value containing a special character,
backslash-escaping each special character round-trips through the parser
provided the value contains no double quote and no backslash, and enclosing
the value in double quotes round-trips provided it contains no double
quote. -/
theorem c6_escape_quote_roundtrip (v : List Char)
    (hsp : ∃ x ∈ v, isSpecialChar x = true) :
    ((∀ x ∈ v, x ≠ '"' ∧ x ≠ '\\') →
      opt_generator ("a=".toList ++ escapeValue v) =
        ([(some ['a'], Value.scalar v)], none)) ∧
    ((∀ x ∈ v, x ≠ '"') →
      opt_generator ("a=".toList ++ ('"' :: v ++ ['"'])) =
        ([(some ['a'], Value.scalar v)], none)) := by
  have h0 : run initState "a=".toList =
      ([], .ok (⟨[], false, false, false, some ['a'], none, none⟩ : PState)) := rfl
  constructor
  · intro hv
    have h1 := run_append_ok "a=".toList initState [] _ h0 (escapeValue v)
    rw [show run (⟨[], false, false, false, some ['a'], none, none⟩ : PState)
        (escapeValue v) =
        ([], .ok (⟨v, false, false, false, some ['a'], none, none⟩ : PState)) by
      simpa using run_escaped v ⟨[], false, false, false, some ['a'], none, none⟩
        rfl rfl hv] at h1
    have h3 : run initState ("a=".toList ++ escapeValue v) =
        ([], .ok (⟨v, false, false, false, some ['a'], none, none⟩ : PState)) := by
      simpa using h1
    simpa using opt_generator_run_ok _ _ _ _ h3 rfl
  · intro hv
    have h1 := run_append_ok "a=".toList initState [] _ h0 ('"' :: v ++ ['"'])
    have hq1 : step (⟨[], false, false, false, some ['a'], none, none⟩ : PState) '"' =
        .ok (⟨[], false, true, false, some ['a'], none, none⟩, []) := rfl
    rw [List.cons_append] at h1
    rw [run_cons_silent _ '"' _ (v ++ ['"']) hq1] at h1
    have hq2 : run (⟨[], false, true, false, some ['a'], none, none⟩ : PState) (v ++ ['"']) =
        ([], .ok (⟨v, false, false, false, some ['a'], none, none⟩ : PState)) := by
      have hv2 := run_quoted v ⟨[], false, true, false, some ['a'], none, none⟩ rfl rfl hv
      have h5 := run_append_ok v _ [] _ (by simpa using hv2) ['"']
      have hq3 : step (⟨v, false, true, false, some ['a'], none, none⟩ : PState) '"' =
          .ok (⟨v, false, false, false, some ['a'], none, none⟩, []) := by
        have := step_quote_close ⟨v, false, true, false, some ['a'], none, none⟩ rfl rfl
        simpa using this
      rw [run_cons_silent _ _ _ _ hq3] at h5
      simpa using h5
    rw [hq2] at h1
    have h3 : run initState ("a=".toList ++ ('"' :: v ++ ['"'])) =
        ([], .ok (⟨v, false, false, false, some ['a'], none, none⟩ : PState)) := by
      simpa using h1
    simpa using opt_generator_run_ok _ _ _ _ h3 rfl

/-- Witness for the amended C6 at the value `,`. -/
theorem c6_escape_quote_roundtrip_w :
    opt_generator ("a=".toList ++ escapeValue [',']) =
      ([(some ['a'], Value.scalar [','])], none) ∧
    opt_generator ("a=".toList ++ ('"' :: [','] ++ ['"'])) =
      ([(some ['a'], Value.scalar [','])], none) :=
  ⟨(c6_escape_quote_roundtrip [','] ⟨',', by decide, by decide⟩).1 (by decide),
   (c6_escape_quote_roundtrip [','] ⟨',', by decide, by decide⟩).2 (by decide)⟩

/-- Claim C7: YMD_DATE coercion accepts exactly the non-empty strings that
parse as ISO `yyyy-mm-dd` dates: a successful parse yields the calendar
date, a failed parse raises a type-mismatch error embedding the
date-parsing message, and the empty string fails without an embedded cause;
in particular `1970-01-01` yields the date 1970-01-01 and `not-a-date`
fails with the "Invalid isoformat string" cause embedded. -/
theorem c7_ymd_date :
    (∀ (dn : String) (s : List Char) (y m d : Nat), s ≠ [] →
      fromisoformat s = .ok (y, m, d) →
      _process_opt dn (.scalar s) .YMD_DATE = .ok (some (.date y m d))) ∧
    (∀ (dn : String) (s : List Char) (e : List Char), s ≠ [] →
      fromisoformat s = .error e →
      _process_opt dn (.scalar s) .YMD_DATE =
        .error (.typeMismatch dn (.scalar s) .YMD_DATE (some e))) ∧
    (∀ dn : String, _process_opt dn (.scalar []) .YMD_DATE =
      .error (.typeMismatch dn (.scalar []) .YMD_DATE none)) ∧
    _process_opt "d" (.scalar "1970-01-01".toList) .YMD_DATE =
      .ok (some (.date 1970 1 1)) ∧
    _process_opt "d" (.scalar "not-a-date".toList) .YMD_DATE =
      .error (.typeMismatch "d" (.scalar "not-a-date".toList) .YMD_DATE
        (some (isoErr "not-a-date".toList))) := by
  refine ⟨?_, ?_, fun dn => rfl, rfl, rfl⟩
  · intro dn s y m d hs hiso
    simp [_process_opt, hs, hiso]
  · intro dn s e hs hiso
    simp [_process_opt, hs, hiso]

/-- Witness for C7 at `1970-01-01`, `not-a-date` and the empty string. -/
theorem c7_ymd_date_w :
    _process_opt "d" (.scalar "1970-01-01".toList) .YMD_DATE =
      .ok (some (.date 1970 1 1)) ∧
    _process_opt "x" (.scalar "not-a-date".toList) .YMD_DATE =
      .error (.typeMismatch "x" (.scalar "not-a-date".toList) .YMD_DATE
        (some (isoErr "not-a-date".toList))) ∧
    _process_opt "e" (.scalar []) .YMD_DATE =
      .error (.typeMismatch "e" (.scalar []) .YMD_DATE none) :=
  ⟨c7_ymd_date.1 "d" "1970-01-01".toList 1970 1 1 (by decide) rfl,
   c7_ymd_date.2.1 "x" "not-a-date".toList (isoErr "not-a-date".toList)
     (by decide) rfl,
   c7_ymd_date.2.2.1 "e"⟩

/-- Claim C8: the `]` handler appends the buffer to the pending list even
when the buffer is empty, so `a=[]` yields the one-element list containing
the empty string, and no emitted list value is ever empty. -/
theorem c8_lists_never_empty :
    opt_generator "a=[]".toList =
      ([(some ['a'], Value.list [Item.str []])], none) ∧
    (∀ s : List Char, ∀ pr ∈ (opt_generator s).1, ∀ l, pr.2 = Value.list l →
      l ≠ []) := by
  refine ⟨rfl, ?_⟩
  intro s pr hpr l hl
  unfold opt_generator at hpr
  cases hrun : run initState s with
  | mk ps res =>
      rw [hrun] at hpr
      cases res with
      | error e =>
          simp at hpr
          exact run_no_empty_list s initState pr (by rw [hrun]; exact hpr) l hl
      | ok σ =>
          cases hfin : finish σ with
          | error e =>
              simp [hfin] at hpr
              exact run_no_empty_list s initState pr (by rw [hrun]; exact hpr) l hl
          | ok ps2 =>
              simp [hfin] at hpr
              rcases hpr with hm | hm
              · exact run_no_empty_list s initState pr (by rw [hrun]; exact hm) l hl
              · obtain ⟨s0, hs0⟩ := finish_ok_scalar σ ps2 hfin pr hm
                rw [hs0] at hl
                exact Value.noConfusion hl

/-- Witness for C8 at the list emitted for `a=[]`. -/
theorem c8_lists_never_empty_w : ([Item.str []] : List Item) ≠ [] :=
  c8_lists_never_empty.2 "a=[]".toList (some ['a'], Value.list [Item.str []])
    (by decide) [Item.str []] rfl

/-- Claim C9: a `,` outside a list with no name captured emits a pair whose
name is `None` instead of raising (as on `foo,`), and the "option without
name" error arises only at an `=` read with an empty buffer and at end of
input with a non-empty buffer and no name set. -/
theorem c9_comma_without_name :
    opt_generator "foo,".toList = ([(none, Value.scalar "foo".toList)], none) ∧
    (∀ σ : PState, σ.escape_detected = false → σ.string_detected = false →
      σ.is_list = false → σ.name = none →
      step σ ',' = .ok ({σ with name := none, data := none, buffer := []},
        [(none, Value.scalar σ.buffer)])) ∧
    (∀ (σ : PState) (c : Char) (b : List Char),
      step σ c = .error (.optWithoutName b) →
      c = '=' ∧ σ.name = none ∧ σ.buffer = []) ∧
    (∀ (σ : PState) (b : List Char), finish σ = .error (.optWithoutName b) →
      σ.name = none ∧ σ.buffer ≠ []) := by
  refine ⟨rfl, ?_, ?_, ?_⟩
  · intro σ h1 h2 h3 h4
    have h := step_comma_scalar σ h1 h2 h3
    rw [h4] at h
    exact h
  · intro σ c b h
    have h' := step_err_optWithoutName σ c b h
    exact ⟨h'.1, h'.2.1, h'.2.2.1⟩
  · intro σ b h
    have h' := finish_err_optWithoutName σ b h
    exact ⟨h'.1, h'.2.1⟩

/-- Witness for C9 at a state holding `f` in the buffer with no name. -/
theorem c9_comma_without_name_w :
    step (⟨['f'], false, false, false, none, none, none⟩ : PState) ',' =
      .ok (⟨[], false, false, false, none, none, none⟩,
        [(none, Value.scalar ['f'])]) ∧
    ('=' = '=' ∧ initState.name = none ∧ initState.buffer = []) ∧
    ((⟨['f'], false, false, false, none, none, none⟩ : PState).name = none ∧
      (⟨['f'], false, false, false, none, none, none⟩ : PState).buffer ≠ []) :=
  ⟨c9_comma_without_name.2.1 ⟨['f'], false, false, false, none, none, none⟩
      rfl rfl rfl rfl,
   c9_comma_without_name.2.2.1 initState '=' [] rfl,
   c9_comma_without_name.2.2.2 ⟨['f'], false, false, false, none, none, none⟩
      ['f'] rfl⟩

/-- Claim C10: a `]` read while no list is open (so the pending list
accumulator is `None`) raises the exception modelling the `AttributeError`
of `None.append` instead of emitting a pair, as on `a=b]`; this failure is
distinct from every descriptive parse error. -/
theorem c10_unmatched_rbracket :
    (∀ σ : PState, σ.escape_detected = false → σ.string_detected = false →
      σ.is_list = false → σ.data = none → step σ ']' = .error .noneAppend) ∧
    opt_generator "a=b]".toList = ([], some .noneAppend) ∧
    (PErr.noneAppend ≠ .nestedList ∧ (∀ b, PErr.noneAppend ≠ .optWithoutName b) ∧
      PErr.noneAppend ≠ .emptyNameInList ∧ PErr.noneAppend ≠ .twoEquals) :=
  ⟨fun σ h1 h2 _ hd => step_rbracket_none σ h1 h2 hd, rfl,
    fun h => PErr.noConfusion h, fun b h => PErr.noConfusion h,
    fun h => PErr.noConfusion h, fun h => PErr.noConfusion h⟩

/-- Witness for C10 at the state reached after `a=b`. -/
theorem c10_unmatched_rbracket_w :
    step (⟨['b'], false, false, false, some ['a'], none, none⟩ : PState) ']' =
      .error .noneAppend :=
  c10_unmatched_rbracket.1 ⟨['b'], false, false, false, some ['a'], none, none⟩
    rfl rfl rfl rfl

end Liboptions
